import Mathlib

/-!
Verification development for the hyperglass query cache-aside orchestrator
(`src/hyperglass/api/routes.py`): the `query` route handler, its cache
protocol, response-envelope assembly, and the `send_webhook` background task.
Python values that can be `None` are modelled with `Option`; Python string
truthiness is modelled by `truthy`; wall-clock instants are rationals.
-/

namespace Hyperglass

/-- One cache entry: the Redis hash fields `output` and `timestamp` used by
`routes.py`, plus the tracked TTL set by `expire`. A missing field is `none`. -/
structure CacheEntry where
  output : Option String := none
  timestamp : Option String := none
  ttl : Option Nat := none
deriving DecidableEq

/-- The cache store state: a map from key to entry (`none` = key absent). -/
abbrev Cache := String → Option CacheEntry

/-- Modelled from the spec: the CacheStore operation `get_field(key, field) ->
value | absent` (the concrete Redis-backed store is not among the analyzed
sources). This is the `cache.get_map(key, field)` call in `routes.py`. -/
def Cache.get_map (c : Cache) (key field : String) : Option String :=
  match c key with
  | none => none
  | some e =>
    if field = "output" then e.output
    else if field = "timestamp" then e.timestamp
    else none

/-- Modelled from the spec: the CacheStore operation `set_field(key, field,
value)`; creates the entry when absent, as Redis `HSET` does. This is the
`cache.set_map_item(key, field, value)` call in `routes.py`. -/
def Cache.set_map_item (c : Cache) (key field value : String) : Cache :=
  fun k =>
    if k = key then
      let e := (c key).getD {}
      if field = "output" then some { e with output := some value }
      else if field = "timestamp" then some { e with timestamp := some value }
      else some e
    else c k

/-- Modelled from the spec: the CacheStore operation `refresh_ttl(key,
seconds)`; a no-op on an absent key, as Redis `EXPIRE` is. This is the
`cache.expire(key, seconds=...)` call in `routes.py`. -/
def Cache.expire (c : Cache) (key : String) (seconds : Nat) : Cache :=
  fun k =>
    if k = key then
      match c key with
      | none => none
      | some e => some { e with ttl := some seconds }
    else c k

/-- The TTL currently attached to a key, for stating TTL properties. -/
def Cache.getTtl (c : Cache) (key : String) : Option Nat :=
  (c key).bind CacheEntry.ttl

/-- Python truthiness of an `Optional[str]`: `None` and `""` are falsy. -/
def truthy : Option String → Bool
  | none => false
  | some s => !(s == "")

/-- Floor of a rational, computed from numerator and denominator so that it
kernel-evaluates directly. -/
def pyFloor (q : ℚ) : ℤ := Int.fdiv q.num q.den

/-- Python `round(x)` to zero decimal places: round half to even. -/
def pyRound (q : ℚ) : ℤ :=
  let f : ℤ := pyFloor q
  let frac : ℚ := q - (f : ℚ)
  if frac < 1/2 then f
  else if 1/2 < frac then f + 1
  else if f % 2 = 0 then f else f + 1

/-- Python `round(x, 4)` as used for `elapsedtime` in `routes.py` line 144. -/
def pyRound4 (q : ℚ) : ℚ := (pyRound (q * 10000) : ℚ) / 10000

/-- The query input (`hyperglass.models.api.Query`): the fields the `query`
route reads. `device` is the target device reference, `deviceStructuredOutput`
its `structured_output` flag, `queryParams` the query parameters, `timestamp`
the submission time recorded on the query itself. -/
structure Query where
  device : String
  deviceStructuredOutput : Bool
  query_type : String
  queryParams : List String
  timestamp : String
deriving DecidableEq

/-- A deterministic string hash, standing in for a cryptographic digest. -/
def strHash (s : String) : Nat :=
  s.data.foldl (fun a c => (a * 131 + c.toNat) % (2 ^ 256)) 7

/-- Canonical order of the query parameters: sorted, so that the digest does
not depend on submission order. -/
def canonicalParams (ps : List String) : List String :=
  List.insertionSort (· ≤ ·) ps

/-- Modelled from the spec: `Query.digest()` (defined in
`hyperglass.models.api`, not among the analyzed sources) — "a deterministic,
collision-resistant digest computed over the canonicalized Query", a pure
function of device, query type and parameters, with no random salt and no
wall-clock input. -/
def Query.digest (q : Query) : String :=
  toString (strHash
    (q.device ++ "|" ++ q.query_type ++ "|" ++
      String.intercalate "," (canonicalParams q.queryParams)))

/-- The cache key built at `routes.py` line 101. -/
def cacheKey (q : Query) : String := "hyperglass.query." ++ q.digest

/-- The `json_output` flag computed at `routes.py` lines 107-114. -/
def jsonOutputFlag (q : Query) : Bool :=
  q.deviceStructuredOutput &&
    (q.query_type == "bgp_route" || q.query_type == "bgp_community" ||
      q.query_type == "bgp_aspath")

/-- The configuration the `query` route reads from `state.params`. -/
structure Params where
  fake_output : Bool
  cacheTimeout : Nat
  messagesGeneral : String
deriving DecidableEq

/-- `HyperglassError(message=..., alert=...)` raised at `routes.py` line 148. -/
structure HyperglassError where
  message : String
  alert : String
deriving DecidableEq

/-- The response envelope returned at `routes.py` lines 173-183. -/
structure Envelope where
  output : Option String
  id : String
  cached : Bool
  runtime : ℤ
  timestamp : Option String
  format : String
  random : String
  level : String
  keywords : List String
deriving DecidableEq

/-- Per-request external inputs of the `query` route: the serializers
`json.dumps` and `str`, the development `fake_output` generator, the result of
`execute(query_data)` (`none` models Python `None`), `datetime.utcnow()`, the
value of `query_data.random()`, and the two `time.time()` readings. -/
structure QueryCtx (Out : Type) where
  jsonDumps : Out → String
  strConv : Out → String
  fakeOutputFn : Bool → Out
  executeResult : Option Out
  now : String
  randomVal : String
  starttime : ℚ
  endtime : ℚ

/-- Response assembly, `routes.py` lines 163-183: re-read the entry's `output`
field (the `cache.get_dict(cache_key, "output")` call; modelled from the spec
as a read of the `output` field, since the store is not among the analyzed
sources), choose the MIME type, and build the envelope. -/
def finishResponse (cache : Cache) (cache_key : String) (json_output cached : Bool)
    (runtime : ℤ) (timestamp : Option String) (randomVal : String) :
    Cache × Except HyperglassError Envelope :=
  let cache_response := cache.get_map cache_key "output"
  let response_format := if json_output then "application/json" else "text/plain"
  (cache, Except.ok
    { output := cache_response
      id := cache_key
      cached := cached
      runtime := runtime
      timestamp := timestamp
      format := response_format
      random := randomVal
      level := "success"
      keywords := [] })

/-- The `query` route handler, `routes.py` lines 84-183. Returns the final
cache state together with either the raised `HyperglassError` or the response
envelope. The three branches mirror the source's `if cache_response` /
`elif not cache_response` / fall-through structure (lines 116-128): the last
branch keeps the defensive defaults `cached = False`, `runtime = 65535` and
the initial `timestamp = datetime.utcnow()`. -/
def query (Out : Type) (ctx : QueryCtx Out) (query_data : Query) (params : Params)
    (cache : Cache) : Cache × Except HyperglassError Envelope :=
  let cache_key := cacheKey query_data
  let cache_response := cache.get_map cache_key "output"
  let json_output := jsonOutputFlag query_data
  if truthy cache_response then
    let cache1 := cache.expire cache_key params.cacheTimeout
    let timestamp := cache1.get_map cache_key "timestamp"
    finishResponse cache1 cache_key json_output true 0 timestamp ctx.randomVal
  else if !(truthy cache_response) then
    let timestamp := query_data.timestamp
    let cache_output :=
      if params.fake_output then some (ctx.fakeOutputFn json_output)
      else ctx.executeResult
    let elapsedtime := pyRound4 (ctx.endtime - ctx.starttime)
    match cache_output with
    | none => (cache, Except.error ⟨params.messagesGeneral, "danger"⟩)
    | some out =>
      let raw_output := if json_output then ctx.jsonDumps out else ctx.strConv out
      let c1 := cache.set_map_item cache_key "output" raw_output
      let c2 := c1.set_map_item cache_key "timestamp" timestamp
      let c3 := c2.expire cache_key params.cacheTimeout
      finishResponse c3 cache_key json_output false (pyRound elapsedtime)
        (some timestamp) ctx.randomVal
  else
    finishResponse cache cache_key json_output false 65535 (some ctx.now) ctx.randomVal

/-- Host selection in `send_webhook`, `routes.py` lines 60-65: the
`x-real-ip` header if present, else `x-forwarded-for` if present, else the
raw connection address `request.client.host`. -/
def pickHost (headers : String → Option String) (clientHost : String) : String :=
  match headers "x-real-ip" with
  | some h => h
  | none =>
    match headers "x-forwarded-for" with
    | some h => h
    | none => clientHost

/-- The payload posted to the webhook at `routes.py` lines 71-79. `network`
is `network_info.get(host, {})`: `none` models an absent key. -/
structure WebhookPayload where
  query_data : Query
  headers : String → Option String
  source : String
  network : Option String
  timestamp : String

/-- The external collaborators of `send_webhook`, each of which may raise:
`params.logging.http` configuration presence, `process_headers`,
`bgptools.network_info`, and `Webhook(...).send`. -/
structure WebhookDeps where
  httpEnabled : Bool
  processHeaders : Except String (String → Option String)
  clientHost : String
  networkInfoRes : Except String (String → Option String)
  sinkSend : WebhookPayload → Except String Unit

/-- What `send_webhook` observably did. -/
inductive SendOutcome
  | skipped
  | sent (payload : WebhookPayload)

/-- How `send_webhook` returned: normally, or by logging a caught error. -/
inductive SendResult
  | completed (outcome : SendOutcome)
  | logged (err : String)

/-- The body of the `try` block of `send_webhook`, `routes.py` lines 56-79:
this part can fail with an exception from any collaborator. -/
def sendWebhookTry (deps : WebhookDeps) (query_data : Query) (timestamp : String) :
    Except String SendOutcome :=
  if deps.httpEnabled then
    match deps.processHeaders with
    | Except.error e => Except.error e
    | Except.ok headers =>
      let host := pickHost headers deps.clientHost
      match deps.networkInfoRes with
      | Except.error e => Except.error e
      | Except.ok networkInfo =>
        let payload : WebhookPayload :=
          { query_data := query_data
            headers := headers
            source := host
            network := networkInfo host
            timestamp := timestamp }
        match deps.sinkSend payload with
        | Except.error e => Except.error e
        | Except.ok _ => Except.ok (SendOutcome.sent payload)
  else Except.ok SendOutcome.skipped

/-- `send_webhook`, `routes.py` lines 51-81: the whole body is wrapped in
`try`/`except Exception`, so any error is caught and logged, never re-raised. -/
def send_webhook (deps : WebhookDeps) (query_data : Query) (timestamp : String) :
    SendResult :=
  match sendWebhookTry deps query_data timestamp with
  | Except.ok o => SendResult.completed o
  | Except.error e => SendResult.logged e

/-- One request as handled by the route, `routes.py` lines 84-93: the webhook
task is scheduled as background work (`background_tasks.add_task`) whose
result is never consumed by the response path, so the pair is independent. -/
def handleRequest (Out : Type) (ctx : QueryCtx Out) (query_data : Query)
    (params : Params) (cache : Cache) (deps : WebhookDeps) :
    (Cache × Except HyperglassError Envelope) × SendResult :=
  (query Out ctx query_data params cache, send_webhook deps query_data ctx.now)

/-! Interleaving model for concurrent requests sharing one fingerprint.
Each request runs the pipeline of `query` (`routes.py` lines 105-157)
abstracted to its cache-visible atomic steps on the shared entry's `output`
field: (1) read the field and branch on truthiness (lines 105, 118, 128);
(2) on a miss, invoke the execution engine (line 141); (3) write the field
and respond with the re-read value (lines 155, 164, 173-183). -/

/-- Local control state of one request in the interleaving model. -/
inductive RPhase
  | start
  | executed (raw : String)
  | responded (cached : Bool) (output : Option String)
deriving DecidableEq

/-- Global state: the shared entry's `output` field value (`none` = absent),
both requests' phases, and the number of execution-engine invocations. -/
structure ConcState where
  entry : Option String
  r1 : RPhase
  r2 : RPhase
  execCount : Nat
deriving DecidableEq

/-- One atomic step of a single request against the shared entry. Returns the
new entry value, the new phase, and the number of engine invocations made. -/
def stepReq (engineOut : String) (entry : Option String) :
    RPhase → Option String × RPhase × Nat
  | RPhase.start =>
    if truthy entry then (entry, RPhase.responded true entry, 0)
    else (entry, RPhase.executed engineOut, 1)
  | RPhase.executed raw => (some raw, RPhase.responded false (some raw), 0)
  | RPhase.responded c o => (entry, RPhase.responded c o, 0)

/-- Scheduler step: `false` steps request 1, `true` steps request 2. -/
def stepConc (engineOut : String) (s : ConcState) : Bool → ConcState
  | false =>
    match stepReq engineOut s.entry s.r1 with
    | (e, p, n) => { s with entry := e, r1 := p, execCount := s.execCount + n }
  | true =>
    match stepReq engineOut s.entry s.r2 with
    | (e, p, n) => { s with entry := e, r2 := p, execCount := s.execCount + n }

/-- Run a schedule (a list of scheduler choices) from a state. -/
def runSched (engineOut : String) : List Bool → ConcState → ConcState
  | [], s => s
  | b :: bs, s => runSched engineOut bs (stepConc engineOut s b)

/-- Initial state: no cache entry, both requests at the start. -/
def initConc : ConcState :=
  { entry := none, r1 := RPhase.start, r2 := RPhase.start, execCount := 0 }

/-! Helper lemmas about the cache operations. -/

lemma get_map_expire (c : Cache) (key : String) (sec : Nat) (k f : String) :
    (c.expire key sec).get_map k f = c.get_map k f := by
  unfold Cache.expire Cache.get_map
  by_cases h : k = key
  · subst h
    cases c k <;> simp
  · simp [h]

lemma get_map_set_same (c : Cache) (key v : String) :
    (c.set_map_item key "output" v).get_map key "output" = some v := by
  unfold Cache.set_map_item Cache.get_map
  simp

lemma get_map_set_ts_output (c : Cache) (key v : String) :
    (c.set_map_item key "timestamp" v).get_map key "output" =
      c.get_map key "output" := by
  unfold Cache.set_map_item Cache.get_map
  cases c key <;> simp [Option.getD]

lemma get_map_set_ts_same (c : Cache) (key v : String) :
    (c.set_map_item key "timestamp" v).get_map key "timestamp" = some v := by
  unfold Cache.set_map_item Cache.get_map
  simp

lemma set_map_item_isSome (c : Cache) (key f v : String) :
    ((c.set_map_item key f v) key).isSome = true := by
  unfold Cache.set_map_item
  by_cases h1 : f = "output" <;> by_cases h2 : f = "timestamp" <;> simp [h1, h2]

lemma getTtl_expire_of_isSome (c : Cache) (key : String) (sec : Nat)
    (h : (c key).isSome = true) : (c.expire key sec).getTtl key = some sec := by
  unfold Cache.expire Cache.getTtl
  cases hc : c key
  · rw [hc] at h; simp at h
  · simp

/-! Branch lemmas for `query`: closed forms of the hit path, the successful
miss path, and the null-result miss path. -/

lemma query_hit_eq (Out : Type) (ctx : QueryCtx Out) (q : Query) (p : Params)
    (c : Cache) (h : truthy (c.get_map (cacheKey q) "output") = true) :
    query Out ctx q p c =
      (c.expire (cacheKey q) p.cacheTimeout,
        Except.ok
          { output := c.get_map (cacheKey q) "output"
            id := cacheKey q
            cached := true
            runtime := 0
            timestamp := c.get_map (cacheKey q) "timestamp"
            format := if jsonOutputFlag q then "application/json" else "text/plain"
            random := ctx.randomVal
            level := "success"
            keywords := [] }) := by
  simp [query, finishResponse, h, get_map_expire]

lemma query_miss_some_eq (Out : Type) (ctx : QueryCtx Out) (q : Query) (p : Params)
    (c : Cache) (out : Out)
    (hmiss : truthy (c.get_map (cacheKey q) "output") = false)
    (hout : (if p.fake_output then some (ctx.fakeOutputFn (jsonOutputFlag q))
              else ctx.executeResult) = some out) :
    query Out ctx q p c =
      (((c.set_map_item (cacheKey q) "output"
            (if jsonOutputFlag q then ctx.jsonDumps out else ctx.strConv out)).set_map_item
          (cacheKey q) "timestamp" q.timestamp).expire (cacheKey q) p.cacheTimeout,
        Except.ok
          { output := some (if jsonOutputFlag q then ctx.jsonDumps out else ctx.strConv out)
            id := cacheKey q
            cached := false
            runtime := pyRound (pyRound4 (ctx.endtime - ctx.starttime))
            timestamp := some q.timestamp
            format := if jsonOutputFlag q then "application/json" else "text/plain"
            random := ctx.randomVal
            level := "success"
            keywords := [] }) := by
  simp [query, finishResponse, hmiss, hout, get_map_expire, get_map_set_ts_output,
    get_map_set_same]

lemma query_miss_none_eq (Out : Type) (ctx : QueryCtx Out) (q : Query) (p : Params)
    (c : Cache)
    (hmiss : truthy (c.get_map (cacheKey q) "output") = false)
    (hout : (if p.fake_output then some (ctx.fakeOutputFn (jsonOutputFlag q))
              else ctx.executeResult) = none) :
    query Out ctx q p c =
      (c, Except.error { message := p.messagesGeneral, alert := "danger" }) := by
  simp [query, hmiss, hout]

lemma isSome_of_get_map (c : Cache) (k f v : String)
    (h : c.get_map k f = some v) : (c k).isSome = true := by
  unfold Cache.get_map at h
  cases hc : c k
  · rw [hc] at h; simp at h
  · simp

/-! Shared concrete inputs used by the witness theorems. -/

/-- A request context whose engine returns the output `"out"`. -/
def ctxW : QueryCtx String :=
  { jsonDumps := fun s => s
    strConv := fun s => s
    fakeOutputFn := fun _ => "fake"
    executeResult := some "out"
    now := "NOW"
    randomVal := "R"
    starttime := 0
    endtime := 1 }

/-- A structured-eligible query against a structured-output device. -/
def qW : Query :=
  { device := "r1"
    deviceStructuredOutput := true
    query_type := "bgp_route"
    queryParams := ["p1"]
    timestamp := "TQ" }

/-- A concrete configuration. -/
def pW : Params :=
  { fake_output := false, cacheTimeout := 120, messagesGeneral := "err" }

/-- The empty cache. -/
def cEmpty : Cache := fun _ => none

/-- A cache holding, at every key, an entry with non-empty output `"x"`. -/
def cHit : Cache :=
  fun _ => some { output := some "x", timestamp := some "T1", ttl := some 60 }

/-- A cache holding, at every key, an entry whose output field is present but
empty. -/
def cEmptyOut : Cache :=
  fun _ => some { output := some "", timestamp := some "T1", ttl := some 60 }

/-- C2: on a miss (no cache entry for the fingerprint) whose execution yields
a non-null result, the orchestrator writes the serialized output and the
query's own submission timestamp to the cache entry, sets the entry's TTL to
the configured duration, and returns `cached = false` with runtime equal to
the elapsed wall-clock time rounded to whole seconds. -/
theorem c2_miss_success :
    ∀ (Out : Type) (ctx : QueryCtx Out) (q : Query) (p : Params) (c : Cache)
      (out : Out),
      c (cacheKey q) = none →
      p.fake_output = false → ctx.executeResult = some out →
      ∃ env, (query Out ctx q p c).2 = Except.ok env ∧
        (query Out ctx q p c).1.get_map (cacheKey q) "output" =
          some (if jsonOutputFlag q then ctx.jsonDumps out else ctx.strConv out) ∧
        (query Out ctx q p c).1.get_map (cacheKey q) "timestamp" = some q.timestamp ∧
        (query Out ctx q p c).1.getTtl (cacheKey q) = some p.cacheTimeout ∧
        env.cached = false ∧
        env.runtime = pyRound (pyRound4 (ctx.endtime - ctx.starttime)) ∧
        env.timestamp = some q.timestamp := by
  intro Out ctx q p c out hc hfake hexec
  have hmiss : truthy (c.get_map (cacheKey q) "output") = false := by
    simp [Cache.get_map, hc, truthy]
  have hout : (if p.fake_output then some (ctx.fakeOutputFn (jsonOutputFlag q))
      else ctx.executeResult) = some out := by
    simp [hfake, hexec]
  rw [query_miss_some_eq Out ctx q p c out hmiss hout]
  refine ⟨_, rfl, ?_, ?_, ?_, rfl, rfl, rfl⟩
  · simp [get_map_expire, get_map_set_ts_output, get_map_set_same]
  · simp [get_map_expire, get_map_set_ts_same]
  · exact getTtl_expire_of_isSome _ _ _ (set_map_item_isSome _ _ _ _)

/-- C2 witness: a concrete miss with engine output `"out"`. -/
theorem c2_miss_success_witness :
    ∃ env, (query String ctxW qW pW cEmpty).2 = Except.ok env ∧
      (query String ctxW qW pW cEmpty).1.get_map (cacheKey qW) "output" =
        some (if jsonOutputFlag qW then ctxW.jsonDumps "out" else ctxW.strConv "out") ∧
      (query String ctxW qW pW cEmpty).1.get_map (cacheKey qW) "timestamp" =
        some qW.timestamp ∧
      (query String ctxW qW pW cEmpty).1.getTtl (cacheKey qW) = some pW.cacheTimeout ∧
      env.cached = false ∧
      env.runtime = pyRound (pyRound4 (ctxW.endtime - ctxW.starttime)) ∧
      env.timestamp = some qW.timestamp :=
  c2_miss_success String ctxW qW pW cEmpty "out" rfl rfl rfl

/-- C3: on a miss where the execution engine returns a null result, the
request fails with the operator-configured generic message and severity
`"danger"`, and the cache state is returned unchanged. -/
theorem c3_null_result :
    ∀ (Out : Type) (ctx : QueryCtx Out) (q : Query) (p : Params) (c : Cache),
      truthy (c.get_map (cacheKey q) "output") = false →
      p.fake_output = false → ctx.executeResult = none →
      query Out ctx q p c =
        (c, Except.error { message := p.messagesGeneral, alert := "danger" }) := by
  intro Out ctx q p c hmiss hfake hexec
  exact query_miss_none_eq Out ctx q p c hmiss (by simp [hfake, hexec])

/-- C3 witness: a concrete miss with a null engine result leaves the cache
untouched and raises the configured error. -/
theorem c3_null_result_witness :
    query String
        { ctxW with executeResult := none } qW pW cEmpty =
      (cEmpty, Except.error { message := pW.messagesGeneral, alert := "danger" }) :=
  c3_null_result String { ctxW with executeResult := none } qW pW cEmpty rfl rfl rfl

/-- C7: every response envelope comes from the hit branch (`cached = true`,
`runtime = 0`) or from the miss branch (`cached = false`, `runtime` the
computed rounded elapsed time); the defensive sentinel branch with
`runtime = 65535` is unreachable because the two branches are exhaustive over
the truthiness of the cache read. -/
theorem c7_runtime_exhaustive :
    ∀ (Out : Type) (ctx : QueryCtx Out) (q : Query) (p : Params) (c : Cache)
      (c2 : Cache) (env : Envelope),
      query Out ctx q p c = (c2, Except.ok env) →
      (env.cached = true ∧ env.runtime = 0) ∨
      (env.cached = false ∧
        env.runtime = pyRound (pyRound4 (ctx.endtime - ctx.starttime))) := by
  intro Out ctx q p c c2 env hrun
  by_cases ht : truthy (c.get_map (cacheKey q) "output") = true
  · rw [query_hit_eq Out ctx q p c ht] at hrun
    simp only [Prod.mk.injEq, Except.ok.injEq] at hrun
    left
    rw [← hrun.2]
    exact ⟨rfl, rfl⟩
  · have ht' : truthy (c.get_map (cacheKey q) "output") = false := by
      revert ht
      cases truthy (c.get_map (cacheKey q) "output") <;> simp
    rcases hco : (if p.fake_output then some (ctx.fakeOutputFn (jsonOutputFlag q))
        else ctx.executeResult) with _ | out
    · rw [query_miss_none_eq Out ctx q p c ht' hco] at hrun
      simp at hrun
    · rw [query_miss_some_eq Out ctx q p c out ht' hco] at hrun
      simp only [Prod.mk.injEq, Except.ok.injEq] at hrun
      right
      rw [← hrun.2]
      exact ⟨rfl, rfl⟩

/-- The envelope produced by a hit run of `ctxW`/`qW`/`pW` on `cHit`. -/
def envHitW : Envelope :=
  { output := some "x"
    id := cacheKey qW
    cached := true
    runtime := 0
    timestamp := some "T1"
    format := "application/json"
    random := "R"
    level := "success"
    keywords := [] }

/-- C7 witness: a concrete hit run lands in the hit disjunct. -/
theorem c7_runtime_exhaustive_witness :
    (envHitW.cached = true ∧ envHitW.runtime = 0) ∨
    (envHitW.cached = false ∧
      envHitW.runtime = pyRound (pyRound4 (ctxW.endtime - ctxW.starttime))) :=
  c7_runtime_exhaustive String ctxW qW pW cHit ((query String ctxW qW pW cHit).1)
    envHitW (by rfl)

/-- C10: a present but empty (falsy) stored `output` field is treated as a
miss, not a hit: the execution engine's fresh output is serialized and
overwrites the entry, and the response reports `cached = false` with a
computed runtime — because the hit/miss decision tests truthiness, not
presence. -/
theorem c10_empty_output_is_miss :
    ∀ (Out : Type) (ctx : QueryCtx Out) (q : Query) (p : Params) (c : Cache)
      (out : Out),
      c.get_map (cacheKey q) "output" = some "" →
      p.fake_output = false → ctx.executeResult = some out →
      ∃ env, (query Out ctx q p c).2 = Except.ok env ∧ env.cached = false ∧
        (query Out ctx q p c).1.get_map (cacheKey q) "output" =
          some (if jsonOutputFlag q then ctx.jsonDumps out else ctx.strConv out) ∧
        env.runtime = pyRound (pyRound4 (ctx.endtime - ctx.starttime)) := by
  intro Out ctx q p c out hc hfake hexec
  have hmiss : truthy (c.get_map (cacheKey q) "output") = false := by
    rw [hc]; rfl
  have hout : (if p.fake_output then some (ctx.fakeOutputFn (jsonOutputFlag q))
      else ctx.executeResult) = some out := by
    simp [hfake, hexec]
  rw [query_miss_some_eq Out ctx q p c out hmiss hout]
  refine ⟨_, rfl, rfl, ?_, rfl⟩
  simp [get_map_expire, get_map_set_ts_output, get_map_set_same]

/-- C10 witness: a cache entry with a present-but-empty output is re-executed
and overwritten. -/
theorem c10_empty_output_is_miss_witness :
    ∃ env, (query String ctxW qW pW cEmptyOut).2 = Except.ok env ∧
      env.cached = false ∧
      (query String ctxW qW pW cEmptyOut).1.get_map (cacheKey qW) "output" =
        some (if jsonOutputFlag qW then ctxW.jsonDumps "out" else ctxW.strConv "out") ∧
      env.runtime = pyRound (pyRound4 (ctxW.endtime - ctxW.starttime)) :=
  c10_empty_output_is_miss String ctxW qW pW cEmptyOut "out" rfl rfl rfl

/-- C1 counterexample: a cache entry whose `output` field is present but
empty is NOT treated as a hit — the response reports `cached = false`, so the
claim that every present `output` field yields a hit is false on the code. -/
theorem c1_counterexample :
    (query String ctxW qW pW cEmptyOut).2.map Envelope.cached =
      Except.ok false := by rfl

/-- C1 (amended): for every query whose fingerprint has a cache entry with a
present AND non-empty (truthy) `output` field, the request is a hit: the
entry's TTL is reset to the configured cache duration, `cached = true` and
`runtime = 0` are returned, and the envelope timestamp is taken from the
stored `timestamp` field; and after a successful miss that stored a non-empty
serialized output for fingerprint F, an immediate subsequent request with the
same F is a hit returning output byte-identical to what the miss stored. -/
theorem c1_cache_hit :
    (∀ (Out : Type) (ctx : QueryCtx Out) (q : Query) (p : Params) (c : Cache)
       (s : String),
      c.get_map (cacheKey q) "output" = some s → s ≠ "" →
      ∃ env, query Out ctx q p c =
          (c.expire (cacheKey q) p.cacheTimeout, Except.ok env) ∧
        env.cached = true ∧ env.runtime = 0 ∧
        env.timestamp = c.get_map (cacheKey q) "timestamp" ∧
        env.output = some s ∧
        (query Out ctx q p c).1.getTtl (cacheKey q) = some p.cacheTimeout) ∧
    (∀ (Out Out2 : Type) (ctx : QueryCtx Out) (ctx2 : QueryCtx Out2) (q : Query)
       (p p2 : Params) (c : Cache) (out : Out),
      truthy (c.get_map (cacheKey q) "output") = false →
      p.fake_output = false → ctx.executeResult = some out →
      (if jsonOutputFlag q then ctx.jsonDumps out else ctx.strConv out) ≠ "" →
      ∃ env1 env2,
        (query Out ctx q p c).2 = Except.ok env1 ∧
        (query Out2 ctx2 q p2 (query Out ctx q p c).1).2 = Except.ok env2 ∧
        env2.cached = true ∧ env2.runtime = 0 ∧
        env1.output =
          some (if jsonOutputFlag q then ctx.jsonDumps out else ctx.strConv out) ∧
        env2.output = env1.output) := by
  constructor
  · intro Out ctx q p c s hs hne
    have ht : truthy (c.get_map (cacheKey q) "output") = true := by
      rw [hs]; simp [truthy, hne]
    rw [query_hit_eq Out ctx q p c ht]
    exact ⟨_, rfl, rfl, rfl, rfl, hs,
      getTtl_expire_of_isSome c _ _ (isSome_of_get_map c _ _ _ hs)⟩
  · intro Out Out2 ctx ctx2 q p p2 c out hmiss hfake hexec hraw
    have hout : (if p.fake_output then some (ctx.fakeOutputFn (jsonOutputFlag q))
        else ctx.executeResult) = some out := by
      simp [hfake, hexec]
    rw [query_miss_some_eq Out ctx q p c out hmiss hout]
    dsimp only
    have hread :
        (((c.set_map_item (cacheKey q) "output"
              (if jsonOutputFlag q then ctx.jsonDumps out else ctx.strConv out)).set_map_item
            (cacheKey q) "timestamp" q.timestamp).expire (cacheKey q)
          p.cacheTimeout).get_map (cacheKey q) "output" =
        some (if jsonOutputFlag q then ctx.jsonDumps out else ctx.strConv out) := by
      simp [get_map_expire, get_map_set_ts_output, get_map_set_same]
    have ht2 : truthy
        ((((c.set_map_item (cacheKey q) "output"
              (if jsonOutputFlag q then ctx.jsonDumps out else ctx.strConv out)).set_map_item
            (cacheKey q) "timestamp" q.timestamp).expire (cacheKey q)
          p.cacheTimeout).get_map (cacheKey q) "output") = true := by
      rw [hread]; simp [truthy, hraw]
    rw [query_hit_eq Out2 ctx2 q p2 _ ht2]
    exact ⟨_, _, rfl, rfl, rfl, rfl, rfl, hread⟩

/-- C1 witness: a concrete hit on a non-empty entry, and a concrete
miss-then-hit pair with byte-identical output. -/
theorem c1_cache_hit_witness :
    (∃ env, query String ctxW qW pW cHit =
        (cHit.expire (cacheKey qW) pW.cacheTimeout, Except.ok env) ∧
      env.cached = true ∧ env.runtime = 0 ∧
      env.timestamp = cHit.get_map (cacheKey qW) "timestamp" ∧
      env.output = some "x" ∧
      (query String ctxW qW pW cHit).1.getTtl (cacheKey qW) = some pW.cacheTimeout) ∧
    (∃ env1 env2,
      (query String ctxW qW pW cEmpty).2 = Except.ok env1 ∧
      (query String ctxW qW pW (query String ctxW qW pW cEmpty).1).2 =
        Except.ok env2 ∧
      env2.cached = true ∧ env2.runtime = 0 ∧
      env1.output =
        some (if jsonOutputFlag qW then ctxW.jsonDumps "out" else ctxW.strConv "out") ∧
      env2.output = env1.output) :=
  ⟨c1_cache_hit.1 String ctxW qW pW cHit "x" rfl (by decide),
    c1_cache_hit.2 String String ctxW ctxW qW pW pW cEmpty "out" rfl rfl rfl
      (by decide)⟩

/-- The structured-output condition, spelled propositionally. -/
lemma format_iff (q : Query) :
    jsonOutputFlag q = true ↔
      (q.deviceStructuredOutput = true ∧
        (q.query_type = "bgp_route" ∨ q.query_type = "bgp_community" ∨
          q.query_type = "bgp_aspath")) := by
  simp only [jsonOutputFlag, Bool.and_eq_true, Bool.or_eq_true, beq_iff_eq, or_assoc]

/-- The format field of every successful envelope. -/
lemma env_format_eq (Out : Type) (ctx : QueryCtx Out) (q : Query) (p : Params)
    (c c2 : Cache) (env : Envelope)
    (hrun : query Out ctx q p c = (c2, Except.ok env)) :
    env.format = if jsonOutputFlag q then "application/json" else "text/plain" := by
  by_cases ht : truthy (c.get_map (cacheKey q) "output") = true
  · rw [query_hit_eq Out ctx q p c ht] at hrun
    simp only [Prod.mk.injEq, Except.ok.injEq] at hrun
    rw [← hrun.2]
  · have ht' : truthy (c.get_map (cacheKey q) "output") = false := by
      revert ht
      cases truthy (c.get_map (cacheKey q) "output") <;> simp
    rcases hco : (if p.fake_output then some (ctx.fakeOutputFn (jsonOutputFlag q))
        else ctx.executeResult) with _ | out
    · rw [query_miss_none_eq Out ctx q p c ht' hco] at hrun
      simp at hrun
    · rw [query_miss_some_eq Out ctx q p c out ht' hco] at hrun
      simp only [Prod.mk.injEq, Except.ok.injEq] at hrun
      rw [← hrun.2]

/-- C4: the response format is `"application/json"` if and only if the query
type is one of `bgp_route`, `bgp_community`, `bgp_aspath` AND the device has
structured output enabled; in all other combinations it is `"text/plain"`.
On a miss the stored output is serialized with `json.dumps` exactly when that
condition holds, and with `str` otherwise. -/
theorem c4_format_selection :
    (∀ (Out : Type) (ctx : QueryCtx Out) (q : Query) (p : Params) (c c2 : Cache)
       (env : Envelope),
      query Out ctx q p c = (c2, Except.ok env) →
      ((env.format = "application/json" ↔
          (q.deviceStructuredOutput = true ∧
            (q.query_type = "bgp_route" ∨ q.query_type = "bgp_community" ∨
              q.query_type = "bgp_aspath"))) ∧
        (env.format = "application/json" ∨ env.format = "text/plain"))) ∧
    (∀ (Out : Type) (ctx : QueryCtx Out) (q : Query) (p : Params) (c : Cache)
       (out : Out),
      truthy (c.get_map (cacheKey q) "output") = false →
      p.fake_output = false → ctx.executeResult = some out →
      (query Out ctx q p c).1.get_map (cacheKey q) "output" =
        some (if jsonOutputFlag q then ctx.jsonDumps out else ctx.strConv out)) := by
  constructor
  · intro Out ctx q p c c2 env hrun
    have hf := env_format_eq Out ctx q p c c2 env hrun
    by_cases hj : jsonOutputFlag q = true
    · have hjson : env.format = "application/json" := by rw [hf, hj]; simp
      rw [hjson]
      exact ⟨iff_of_true rfl ((format_iff q).mp hj), Or.inl rfl⟩
    · have hj' : jsonOutputFlag q = false := by
        revert hj; cases jsonOutputFlag q <;> simp
      have htext : env.format = "text/plain" := by rw [hf, hj']; simp
      rw [htext]
      refine ⟨⟨fun habs => absurd habs (by decide), fun hr => ?_⟩, Or.inr rfl⟩
      have h2 := (format_iff q).mpr hr
      rw [hj'] at h2
      exact absurd h2 (by decide)
  · intro Out ctx q p c out hmiss hfake hexec
    have hout : (if p.fake_output then some (ctx.fakeOutputFn (jsonOutputFlag q))
        else ctx.executeResult) = some out := by
      simp [hfake, hexec]
    rw [query_miss_some_eq Out ctx q p c out hmiss hout]
    simp [get_map_expire, get_map_set_ts_output, get_map_set_same]

/-- C4 witness: a concrete structured-eligible hit, and a concrete miss whose
stored output is the JSON serialization. -/
theorem c4_format_selection_witness :
    ((envHitW.format = "application/json" ↔
        (qW.deviceStructuredOutput = true ∧
          (qW.query_type = "bgp_route" ∨ qW.query_type = "bgp_community" ∨
            qW.query_type = "bgp_aspath"))) ∧
      (envHitW.format = "application/json" ∨ envHitW.format = "text/plain")) ∧
    (query String ctxW qW pW cEmpty).1.get_map (cacheKey qW) "output" =
      some (if jsonOutputFlag qW then ctxW.jsonDumps "out" else ctxW.strConv "out") :=
  ⟨c4_format_selection.1 String ctxW qW pW cHit ((query String ctxW qW pW cHit).1)
      envHitW (by rfl),
    c4_format_selection.2 String ctxW qW pW cEmpty "out" rfl rfl rfl⟩

/-- C5: the fingerprint is a pure function of device, query type and
parameters: two logically-equal queries (same device and type, parameters in
any order) produce the same digest, with no randomness or wall-clock input
(the digest reads no other data — in particular not the timestamp). -/
theorem c5_digest_deterministic :
    ∀ q1 q2 : Query,
      q1.device = q2.device → q1.query_type = q2.query_type →
      q1.queryParams.Perm q2.queryParams →
      q1.digest = q2.digest := by
  intro q1 q2 hd ht hp
  have hc : canonicalParams q1.queryParams = canonicalParams q2.queryParams := by
    unfold canonicalParams
    exact List.eq_of_perm_of_sorted (r := (· ≤ ·))
      (((List.perm_insertionSort (· ≤ ·) q1.queryParams).trans hp).trans
        (List.perm_insertionSort (· ≤ ·) q2.queryParams).symm)
      (List.sorted_insertionSort (· ≤ ·) q1.queryParams)
      (List.sorted_insertionSort (· ≤ ·) q2.queryParams)
  unfold Query.digest
  rw [hd, ht, hc]

/-- A query with parameters in one order. -/
def qW5a : Query :=
  { device := "r1"
    deviceStructuredOutput := true
    query_type := "bgp_route"
    queryParams := ["a", "b"]
    timestamp := "T1" }

/-- The same logical query: parameters permuted, different timestamp. -/
def qW5b : Query :=
  { device := "r1"
    deviceStructuredOutput := true
    query_type := "bgp_route"
    queryParams := ["b", "a"]
    timestamp := "T2" }

/-- C5 witness: two permuted concrete queries share a digest. -/
theorem c5_digest_deterministic_witness : qW5a.digest = qW5b.digest :=
  c5_digest_deterministic qW5a qW5b rfl rfl (List.Perm.swap "b" "a" [])

/-- C6: the response path is independent of the notification collaborators
(the background task's result is never consumed), and any exception in the
notification path is caught: when the try-body fails with `e`, `send_webhook`
returns normally having logged `e` instead of raising. -/
theorem c6_notification_isolation :
    (∀ (Out : Type) (ctx : QueryCtx Out) (q : Query) (p : Params) (c : Cache)
       (deps1 deps2 : WebhookDeps),
      (handleRequest Out ctx q p c deps1).1 = (handleRequest Out ctx q p c deps2).1) ∧
    (∀ (deps : WebhookDeps) (q : Query) (ts e : String),
      sendWebhookTry deps q ts = Except.error e →
      send_webhook deps q ts = SendResult.logged e) := by
  constructor
  · intro _ _ _ _ _ _ _
    rfl
  · intro deps q ts e h
    simp [send_webhook, h]

/-- Notification collaborators whose sink always throws. -/
def depsBoom : WebhookDeps :=
  { httpEnabled := true
    processHeaders := Except.ok (fun _ => none)
    clientHost := "203.0.113.7"
    networkInfoRes := Except.ok (fun _ => none)
    sinkSend := fun _ => Except.error "boom" }

/-- Notification collaborators that all succeed. -/
def depsOk : WebhookDeps :=
  { httpEnabled := true
    processHeaders := Except.ok (fun _ => none)
    clientHost := "203.0.113.7"
    networkInfoRes := Except.ok (fun _ => none)
    sinkSend := fun _ => Except.ok () }

/-- C6 witness: an always-throwing sink leaves the concrete response and
cache identical to a succeeding sink, and the thrown error is only logged. -/
theorem c6_notification_isolation_witness :
    (handleRequest String ctxW qW pW cEmpty depsBoom).1 =
      (handleRequest String ctxW qW pW cEmpty depsOk).1 ∧
    send_webhook depsBoom qW ctxW.now = SendResult.logged "boom" :=
  ⟨c6_notification_isolation.1 String ctxW qW pW cEmpty depsBoom depsOk,
    c6_notification_isolation.2 depsBoom qW ctxW.now "boom" rfl⟩

/-- C8: the notification source host follows the fixed precedence of
`send_webhook`: the `x-real-ip` header when present, else the
`x-forwarded-for` header when present, else the raw connection address. -/
theorem c8_host_precedence :
    (∀ (headers : String → Option String) (clientHost h : String),
      headers "x-real-ip" = some h → pickHost headers clientHost = h) ∧
    (∀ (headers : String → Option String) (clientHost h : String),
      headers "x-real-ip" = none → headers "x-forwarded-for" = some h →
      pickHost headers clientHost = h) ∧
    (∀ (headers : String → Option String) (clientHost : String),
      headers "x-real-ip" = none → headers "x-forwarded-for" = none →
      pickHost headers clientHost = clientHost) := by
  refine ⟨?_, ?_, ?_⟩ <;> intros <;> simp [pickHost, *]

/-- Headers carrying only a real-IP entry. -/
def headersRealIp : String → Option String :=
  fun k => if k = "x-real-ip" then some "198.51.100.9" else none

/-- C8 witness: concrete header maps exercise the first and last precedence
levels. -/
theorem c8_host_precedence_witness :
    pickHost headersRealIp "10.0.0.1" = "198.51.100.9" ∧
    pickHost (fun _ => none) "10.0.0.1" = "10.0.0.1" :=
  ⟨c8_host_precedence.1 headersRealIp "10.0.0.1" "198.51.100.9" rfl,
    c8_host_precedence.2.2 (fun _ => none) "10.0.0.1" rfl rfl⟩

/-- C9 counterexample: with two concurrent requests sharing a fingerprint and
an absent entry, the interleaving in which both read before either writes
makes the execution engine run twice, not exactly once. -/
theorem c9_counterexample :
    (runSched "out" [false, true, false, true] initConc).execCount = 2 ∧
    (runSched "out" [false, true, false, true] initConc).execCount ≠ 1 := by
  decide

/-- C9 (amended): requests with the same fingerprint that are serialized
(each completes before the next begins) produce exactly one execution-engine
invocation and consistent (byte-identical) responses; overlapping requests
that each observe the absent entry each invoke the engine. -/
theorem c9_serialized_dedup :
    ∀ engineOut : String, engineOut ≠ "" →
      (runSched engineOut [false, false, true] initConc).execCount = 1 ∧
      (runSched engineOut [false, false, true] initConc).r1 =
        RPhase.responded false (some engineOut) ∧
      (runSched engineOut [false, false, true] initConc).r2 =
        RPhase.responded true (some engineOut) := by
  intro eo h
  have hb : (eo == "") = false := beq_eq_false_iff_ne.mpr h
  simp [runSched, stepConc, stepReq, initConc, truthy, hb]

/-- C9 witness: the serialized schedule with a concrete engine output. -/
theorem c9_serialized_dedup_witness :
    (runSched "out" [false, false, true] initConc).execCount = 1 ∧
    (runSched "out" [false, false, true] initConc).r1 =
      RPhase.responded false (some "out") ∧
    (runSched "out" [false, false, true] initConc).r2 =
      RPhase.responded true (some "out") :=
  c9_serialized_dedup "out" (by decide)

end Hyperglass
